import Mathlib

/-!
Verification of the alert-evaluation core of the stock-monitor repository.

The definitions below are a shallow embedding of the Python sources:
`src/monitor.py` (the multi-stock variant with target prices, the richest of
the three script variants), `src/stock_monitor.py` (the `elif` variant),
`src/920579.py` (the single-stock variant), and the modular package under
`src/managers/`.  Prices and amounts are rationals, wall-clock instants are
integers (seconds), and the outside world (dispatch success of the platform
notifier, network-probe outcomes, the fetched quote batch) is passed in as
explicit oracle data so that every function is total and executable.
-/

namespace StockMonitor

/-- Round a rational to the nearest integer, halves up: `⌊q + 1/2⌋`,
written with integer Euclidean division so that it evaluates inside the
kernel.  `intRound_eq_round` below shows it agrees with the Mathlib
function `round`. -/
def intRound (q : ℚ) : ℤ := (2 * q.num + (q.den : ℤ)) / (2 * (q.den : ℤ))

/-- Python `round(x, 2)`: round to two decimal places (the claims at issue
never hit half-way cases, where the float banker rounding of Python could
differ from rounding halves up). -/
def round2 (q : ℚ) : ℚ := ((intRound (q * 100) : ℤ) : ℚ) / 100

/-- Python `int(q)` on a rational value: truncation toward zero. -/
def pyInt (q : ℚ) : ℤ := q.num.tdiv q.den

/-- The alert categories emitted by `check_stock_alerts` /
`process_stock_data` (the four `send_notification` call sites). -/
inductive AlertKind where
  | volumeSpike
  | priceMove
  | priceWarning
  | targetReached (target : ℚ)
deriving DecidableEq

/-- One candidate alert, i.e. one call to `send_notification`.
`delivered` records whether the platform dispatch actually happened and
succeeded (false when suppressed by the cooldown or when the collaborator
raised). `time` is the wall-clock instant of the call. -/
structure Emitted where
  kind : AlertKind
  critical : Bool
  time : ℤ
  delivered : Bool
deriving DecidableEq

/-- The fields of one quote record consumed by the core
(`price`, `last_close`, `vol`, `amount`). -/
structure QuoteData where
  price : ℚ
  last_close : ℚ
  vol : ℤ
  amount : ℚ
deriving DecidableEq

/-- The `Stock` class of `src/monitor.py`: per-symbol thresholds, target
prices with their triggered flags, and the mutable monitoring state.
The `target_triggered` dict is modelled as a function from price to flag
(the Python code only ever reads keys it initialised to `False`). -/
structure Stock where
  volume_threshold : ℚ
  price_alert_threshold : ℚ
  price_change_threshold : ℚ
  target_prices : List ℚ
  target_triggered : ℚ → Bool
  current_price : ℚ
  last_close : ℚ
  volume : ℤ
  amount : ℚ
  change_percent : ℚ
  last_notification_time : Option ℤ
  start_amount : ℚ
  last_minute : ℤ

/-- `Stock.update` from `src/monitor.py`: copy the quote fields (amount
divided by 10000), then recompute `change_percent` only when the freshly
assigned `last_close` is positive. -/
def Stock.update (s : Stock) (d : QuoteData) : Stock :=
  let base : Stock := { s with current_price := d.price, last_close := d.last_close,
                               volume := d.vol, amount := d.amount / 10000 }
  if 0 < d.last_close then
    { base with change_percent := round2 ((d.price - d.last_close) / d.last_close * 100) }
  else base

/-- `can_send_notification` from `src/monitor.py`: true when no notification
was ever delivered, or when at least `cooldown` seconds have elapsed since
the last delivered one. -/
def canSendNotification (cooldown now : ℤ) (s : Stock) : Bool :=
  match s.last_notification_time with
  | none => true
  | some t => decide (cooldown ≤ now - t)

/-- `send_notification` from `src/monitor.py`.  The head of `o` is the
outcome of the platform dispatch (true = no exception).  When the cooldown
blocks, the function returns without attempting dispatch and consumes no
oracle entry.  On a failed dispatch the exception is caught: the state is
returned unchanged (in particular `last_notification_time` keeps its old
value) and exactly one candidate is recorded, undelivered. -/
def sendNotification (cooldown now : ℤ) (s : Stock) (k : AlertKind) (critical : Bool)
    (o : List Bool) : Stock × List Bool × List Emitted :=
  if canSendNotification cooldown now s then
    if o.headD true then
      ({ s with last_notification_time := some now }, o.tail, [⟨k, critical, now, true⟩])
    else (s, o.tail, [⟨k, critical, now, false⟩])
  else (s, o, [⟨k, critical, now, false⟩])

/-- First block of `check_stock_alerts` (`src/monitor.py`): at the start of
a minute (`second == 0` and a minute value different from `last_minute`),
capture the per-minute baseline and record the minute. -/
def baselineStage (minute second : ℤ) (s : Stock) : Stock :=
  if second = 0 ∧ minute ≠ s.last_minute then
    { s with start_amount := s.amount, last_minute := minute }
  else s

/-- Second block of `check_stock_alerts` (`src/monitor.py`): in the 58–59
second window, with a positive baseline, a volume increase above the
threshold emits a VolumeSpike candidate and then re-assigns
`start_amount := amount`. -/
def volumeStage (cooldown now second : ℤ) (s : Stock) (o : List Bool) :
    Stock × List Bool × List Emitted :=
  if 58 ≤ second ∧ second ≤ 59 ∧ 0 < s.start_amount then
    if s.volume_threshold < s.amount - s.start_amount then
      let r := sendNotification cooldown now s AlertKind.volumeSpike false o
      ({ r.1 with start_amount := r.1.amount }, r.2.1, r.2.2)
    else (s, o, [])
  else (s, o, [])

/-- Third block of `check_stock_alerts` (`src/monitor.py`): price alert. -/
def priceAlertStage (cooldown now : ℤ) (s : Stock) (o : List Bool) :
    Stock × List Bool × List Emitted :=
  if s.price_alert_threshold < |s.change_percent| then
    sendNotification cooldown now s AlertKind.priceMove false o
  else (s, o, [])

/-- Fourth block of `check_stock_alerts` (`src/monitor.py`): large price
swing, critical. -/
def priceWarningStage (cooldown now : ℤ) (s : Stock) (o : List Bool) :
    Stock × List Bool × List Emitted :=
  if s.price_change_threshold < |s.change_percent| then
    sendNotification cooldown now s AlertKind.priceWarning true o
  else (s, o, [])

/-- Last block of `check_stock_alerts` (`src/monitor.py`): for each target
price not yet triggered with `current_price >= target`, set the flag first
and then call `send_notification`. -/
def checkTargets (cooldown now : ℤ) : List ℚ → Stock → List Bool →
    Stock × List Bool × List Emitted
  | [], s, o => (s, o, [])
  | p :: rest, s, o =>
    if s.target_triggered p = false ∧ p ≤ s.current_price then
      let s1 : Stock :=
        { s with target_triggered := fun q => if q = p then true else s.target_triggered q }
      let r := sendNotification cooldown now s1 (AlertKind.targetReached p) true o
      let r2 := checkTargets cooldown now rest r.1 r.2.1
      (r2.1, r2.2.1, r.2.2 ++ r2.2.2)
    else checkTargets cooldown now rest s o

/-- `check_stock_alerts` from `src/monitor.py`: the five blocks in source
order, threading the stock state and the dispatch oracle. -/
def checkStockAlerts (cooldown : ℤ) (s : Stock) (minute second now : ℤ) (o : List Bool) :
    Stock × List Bool × List Emitted :=
  let s1 := baselineStage minute second s
  let r2 := volumeStage cooldown now second s1 o
  let r3 := priceAlertStage cooldown now r2.1 r2.2.1
  let r4 := priceWarningStage cooldown now r3.1 r3.2.1
  let r5 := checkTargets cooldown now r4.1.target_prices r4.1 r4.2.1
  (r5.1, r5.2.1, r2.2.2 ++ (r3.2.2 ++ (r4.2.2 ++ r5.2.2)))

/-- One polling tick for one symbol: the wall clock (absolute seconds plus
the minute/second fields read from it), the fetched quote record, and the
dispatch-outcome oracle for this tick. -/
structure TickData where
  minute : ℤ
  second : ℤ
  now : ℤ
  quote : QuoteData
  oracle : List Bool

/-- Per-record body of the `monitor_stocks` loop (`src/monitor.py`):
`stock.update(item)` followed by `check_stock_alerts`. -/
def processTick (cooldown : ℤ) (s : Stock) (t : TickData) : Stock × List Emitted :=
  let s1 := Stock.update s t.quote
  let r := checkStockAlerts cooldown s1 t.minute t.second t.now t.oracle
  (r.1, r.2.2)

/-- A whole run: process a sequence of ticks for one symbol, concatenating
the emitted candidates in order. -/
def processTicks (cooldown : ℤ) (s : Stock) : List TickData → Stock × List Emitted
  | [] => (s, [])
  | t :: ts =>
    let r := processTick cooldown s t
    let r2 := processTicks cooldown r.1 ts
    (r2.1, r.2 ++ r2.2)

/-- Number of TargetReached candidates for a given target price in an
emission list. -/
def countTR (p : ℚ) (es : List Emitted) : ℕ :=
  es.countP (fun e => decide (e.kind = AlertKind.targetReached p))

/-- The start instants of the notifications that were actually delivered,
in emission order. -/
def deliveredTimes (es : List Emitted) : List ℤ :=
  (es.filter (fun e => e.delivered)).map (fun e => e.time)

/-- `SepFrom cooldown l ts`: starting from last-notification timestamp `l`,
the successive delivery instants `ts` each keep at least `cooldown` seconds
of distance from their predecessor. -/
def SepFrom (cooldown : ℤ) : Option ℤ → List ℤ → Prop
  | _, [] => True
  | none, t :: ts => SepFrom cooldown (some t) ts
  | some l, t :: ts => cooldown ≤ t - l ∧ SepFrom cooldown (some t) ts

/-- The last-notification timestamp after the delivery instants `ts` have
happened on top of `l`. -/
def lastTime (l : Option ℤ) : List ℤ → Option ℤ
  | [] => l
  | t :: ts => lastTime (some t) ts

/-- The `Stock` class of `src/stock_monitor.py` (the variant without target
prices and without minute tracking). -/
structure SMStock where
  volume_threshold : ℚ
  price_alert_threshold : ℚ
  price_change_threshold : ℚ
  current_price : ℚ
  last_close : ℚ
  volume : ℤ
  amount : ℚ
  change_percent : ℚ
  last_notification_time : Option ℤ
  start_amount : ℚ

/-- `Stock.update` from `src/stock_monitor.py` (same body as the
`monitor.py` one). -/
def SMStock.update (s : SMStock) (d : QuoteData) : SMStock :=
  let base : SMStock := { s with current_price := d.price, last_close := d.last_close,
                                 volume := d.vol, amount := d.amount / 10000 }
  if 0 < d.last_close then
    { base with change_percent := round2 ((d.price - d.last_close) / d.last_close * 100) }
  else base

/-- `can_send_notification` from `src/stock_monitor.py` (same cooldown
test as in `monitor.py`). -/
def smCanSendNotification (cooldown now : ℤ) (s : SMStock) : Bool :=
  match s.last_notification_time with
  | none => true
  | some t => decide (cooldown ≤ now - t)

/-- `send_notification` from `src/stock_monitor.py` (same body as the
`monitor.py` one, for the targetless `Stock`). -/
def smSendNotification (cooldown now : ℤ) (s : SMStock) (k : AlertKind) (critical : Bool)
    (o : List Bool) : SMStock × List Bool × List Emitted :=
  if smCanSendNotification cooldown now s then
    if o.headD true then
      ({ s with last_notification_time := some now }, o.tail, [⟨k, critical, now, true⟩])
    else (s, o.tail, [⟨k, critical, now, false⟩])
  else (s, o, [⟨k, critical, now, false⟩])

/-- `check_stock_alerts` from `src/stock_monitor.py`.  Differences from the
`monitor.py` version: the baseline is captured on every `second == 0` tick
(no minute guard), the volume check fires at `second == 59` exactly and does
not re-assign the baseline, and the price-alert check is an `elif` chained
to the volume-window test, so it is skipped whenever
`second == 59 ∧ start_amount > 0`. -/
def smCheckStockAlerts (cooldown : ℤ) (s : SMStock) (second now : ℤ) (o : List Bool) :
    SMStock × List Bool × List Emitted :=
  let s1 := if second = 0 then { s with start_amount := s.amount } else s
  let r2 :=
    if second = 59 ∧ 0 < s1.start_amount then
      if s1.volume_threshold < s1.amount - s1.start_amount then
        smSendNotification cooldown now s1 AlertKind.volumeSpike false o
      else (s1, o, ([] : List Emitted))
    else if s1.price_alert_threshold < |s1.change_percent| then
      smSendNotification cooldown now s1 AlertKind.priceMove false o
    else (s1, o, ([] : List Emitted))
  let r3 :=
    if r2.1.price_change_threshold < |r2.1.change_percent| then
      smSendNotification cooldown now r2.1 AlertKind.priceWarning true r2.2.1
    else (r2.1, r2.2.1, ([] : List Emitted))
  (r3.1, r3.2.1, r2.2.2 ++ r3.2.2)

/-- The exception raised by `DataProcessor.parse_data`
(`src/managers/data_processor.py`) when `last_close` is zero. -/
inductive ParseError where
  | zeroDivision
deriving DecidableEq

/-- `DataProcessor.parse_data` (`src/managers/data_processor.py`): computes
the difference ratio with no guard, so a zero `last_close` raises
`ZeroDivisionError` (modelled as `Except.error`); `int(...)` truncates the
amount toward zero. -/
def parseData (d : QuoteData) : Except ParseError (ℚ × ℚ × ℚ × ℤ) :=
  if d.last_close = 0 then Except.error ParseError.zeroDivision
  else
    Except.ok (d.price, d.last_close,
      round2 ((d.price - d.last_close) / d.last_close * 100),
      pyInt (d.amount / 10000))

/-- The retry-related fields of the `Config` dataclass
(`src/models/config_model.py`). -/
structure Config where
  max_retries : ℕ
  max_network_retries : ℕ

/-- The retry-related fields of the `State` class
(`src/models/state_model.py`). -/
structure State where
  connection_retries : ℕ
  network_retries : ℕ
deriving DecidableEq

/-- `ConnectionManager.should_reconnect`
(`src/managers/connection_manager.py`): refuse once the connection retry
count reaches `max_retries`, or once the network retry count reaches
`max_network_retries`. -/
def shouldReconnect (cfg : Config) (st : State) : Bool :=
  if cfg.max_retries ≤ st.connection_retries then false
  else if cfg.max_network_retries ≤ st.network_retries then false
  else true

/-- The common recovery loop of `wait_for_network_recovery`
(`src/monitor.py`) and `NetworkManager.wait_for_recovery`
(`src/managers/network_manager.py`).  `probes r` is the outcome of the
probe on attempt `r` (0-based); the fuel argument is the number of attempts
still allowed.  Returns the boolean result together with the list of sleep
durations performed, in order: after the `r`-th failed probe the loop
sleeps `base * 2 ^ r` seconds. -/
def recoveryGo (probes : ℕ → Bool) (base : ℕ) : ℕ → ℕ → Bool × List ℕ
  | 0, _ => (false, [])
  | f + 1, r =>
    if probes r then (true, [])
    else
      let p := recoveryGo probes base f (r + 1)
      (p.1, base * 2 ^ r :: p.2)

/-- `wait_for_network_recovery` from `src/monitor.py`: base delay hardcoded
to 5 seconds. -/
def waitForNetworkRecovery (probes : ℕ → Bool) (max_retries : ℕ) : Bool × List ℕ :=
  recoveryGo probes 5 max_retries 0

/-- `NetworkManager.wait_for_recovery`
(`src/managers/network_manager.py`): same loop with the configured base
delay; on success the network retry counter of the state is reset to 0,
otherwise left unchanged.  Returns (result, new network_retries, sleeps). -/
def nmWaitForRecovery (probes : ℕ → Bool) (max_network_retries network_retry_delay : ℕ)
    (network_retries : ℕ) : Bool × ℕ × List ℕ :=
  let p := recoveryGo probes network_retry_delay max_network_retries 0
  (p.1, if p.1 then 0 else network_retries, p.2)

/-- One record of the quote batch returned by `get_security_quotes`,
routed back to its symbol via `code` (modelled as a number). -/
structure QuoteItem where
  code : ℕ
  data : QuoteData

/-- Lookup in the `stocks` dict of `monitor_stocks` (`src/monitor.py`). -/
def lookupStock : List (ℕ × Stock) → ℕ → Option Stock
  | [], _ => none
  | (c, s) :: rest, code => if c = code then some s else lookupStock rest code

/-- Write-back into the `stocks` dict of `monitor_stocks`. -/
def setStock : List (ℕ × Stock) → ℕ → Stock → List (ℕ × Stock)
  | [], _, _ => []
  | (c, s) :: rest, code, s2 =>
    if c = code then (c, s2) :: rest else (c, s) :: setStock rest code s2

/-- The per-item loop of `monitor_stocks` (`src/monitor.py`): for each
record whose code matches a known stock, update it and run
`check_stock_alerts`; unknown codes are skipped. -/
def applyQuotes (cooldown minute second now : ℤ) :
    List QuoteItem → List (ℕ × Stock) → List Bool →
    List (ℕ × Stock) × List Bool × List Emitted
  | [], stocks, o => (stocks, o, [])
  | item :: rest, stocks, o =>
    match lookupStock stocks item.code with
    | none => applyQuotes cooldown minute second now rest stocks o
    | some s =>
      let s1 := Stock.update s item.data
      let r := checkStockAlerts cooldown s1 minute second now o
      let r2 := applyQuotes cooldown minute second now rest (setStock stocks item.code r.1) r.2.1
      (r2.1, r2.2.1, r.2.2 ++ r2.2.2)

/-- The loop-local state of `monitor_stocks` (`src/monitor.py`): the stock
dictionary and the `is_connected` flag. -/
structure MonitorState where
  stocks : List (ℕ × Stock)
  is_connected : Bool

/-- The fetch-and-process stage of one `monitor_stocks` iteration
(`src/monitor.py`).  A `None` or empty response is falsy in Python:
the loop logs, disconnects (`is_connected = False`) and continues with no
stock updated and no alert evaluated.  A non-empty response is processed
record by record. -/
def monitorFetchStep (cooldown minute second now : ℤ) (st : MonitorState)
    (response : Option (List QuoteItem)) (o : List Bool) : MonitorState × List Emitted :=
  match response with
  | none => ({ st with is_connected := false }, [])
  | some [] => ({ st with is_connected := false }, [])
  | some (item :: rest) =>
    let r := applyQuotes cooldown minute second now (item :: rest) st.stocks o
    ({ st with stocks := r.1 }, r.2.2)

/-- The global `state` dict of `src/920579.py` (fields touched by the
inner monitoring loop). -/
structure St920579 where
  last_notification_time : Option ℤ
  start_amount : ℤ
  last_price : Option ℚ
deriving DecidableEq

/-- `send_notification` from `src/920579.py`: cooldown check against the
global state, dispatch, timestamp updated only on success, exception
caught. -/
def send920579 (cooldown now : ℤ) (st : St920579) (k : AlertKind) (critical : Bool)
    (o : List Bool) : St920579 × List Bool × List Emitted :=
  match st.last_notification_time with
  | some l =>
    if now - l < cooldown then (st, o, [⟨k, critical, now, false⟩])
    else if o.headD true then
      ({ st with last_notification_time := some now }, o.tail, [⟨k, critical, now, true⟩])
    else (st, o.tail, [⟨k, critical, now, false⟩])
  | none =>
    if o.headD true then
      ({ st with last_notification_time := some now }, o.tail, [⟨k, critical, now, true⟩])
    else (st, o.tail, [⟨k, critical, now, false⟩])

/-- `process_stock_data` from `src/920579.py`.  The difference ratio is
computed with no zero guard; a zero `last_close` raises, the surrounding
`try` in `monitor_stock` catches it, and since nothing global was assigned
before the raise the state is returned unchanged with no candidates. -/
def processStockData920579 (cooldown : ℤ) (volume_threshold : ℤ)
    (price_change_threshold : ℚ) (now seconds : ℤ) (d : QuoteData) (st : St920579)
    (o : List Bool) : St920579 × List Bool × List Emitted :=
  if d.last_close = 0 then (st, o, [])
  else
    let difference_ratio := round2 ((d.price - d.last_close) / d.last_close * 100)
    let amount : ℤ := pyInt (d.amount / 10000)
    let st1 := if seconds = 0 then { st with start_amount := amount } else st
    let r2 :=
      if seconds = 59 ∧ 0 < st1.start_amount ∧ volume_threshold < amount - st1.start_amount then
        send920579 cooldown now st1 AlertKind.volumeSpike false o
      else (st1, o, ([] : List Emitted))
    let r3 :=
      if price_change_threshold < |difference_ratio| then
        send920579 cooldown now r2.1 AlertKind.priceWarning true r2.2.1
      else (r2.1, r2.2.1, ([] : List Emitted))
    ({ r3.1 with last_price := some d.price }, r3.2.1, r2.2.2 ++ r3.2.2)

/-- The fetch-and-process body of the inner loop of `monitor_stock`
(`src/920579.py`): `if response: process_stock_data(response[0])
else: log a warning`.  The connection is left exactly as it was in both
branches — this variant never disconnects on an empty batch.  The first
component of the result is the connection status of the `api` object. -/
def innerTick920579 (cooldown : ℤ) (volume_threshold : ℤ) (price_change_threshold : ℚ)
    (now seconds : ℤ) (connected : Bool) (st : St920579)
    (response : Option (List QuoteData)) (o : List Bool) :
    Bool × St920579 × List Emitted :=
  match response with
  | none => (connected, st, [])
  | some [] => (connected, st, [])
  | some (d :: _) =>
    let r := processStockData920579 cooldown volume_threshold price_change_threshold
      now seconds d st o
    (connected, r.1, r.2.2)

/-! ### Bookkeeping lemmas about emission lists -/

/-- The computable rounding agrees with the Mathlib `round` on rationals. -/
theorem intRound_eq_round (q : ℚ) : intRound q = round q := by
  rw [round_eq]
  have hden : ((q.den : ℚ)) ≠ 0 := Nat.cast_ne_zero.mpr q.den_nz
  have hq : q + 1 / 2 = (((2 * q.num + (q.den : ℤ) : ℤ) : ℚ)) / (((2 * q.den : ℕ) : ℚ)) := by
    conv_lhs => rw [← Rat.num_div_den q]
    push_cast
    field_simp
    ring
  rw [hq, Rat.floor_intCast_div_natCast]
  unfold intRound
  push_cast
  rfl

/-- Delivered times distribute over concatenation of emission lists. -/
@[simp]
theorem deliveredTimes_append (xs ys : List Emitted) :
    deliveredTimes (xs ++ ys) = deliveredTimes xs ++ deliveredTimes ys := by
  simp [deliveredTimes]

/-- TargetReached counting distributes over concatenation. -/
@[simp]
theorem countTR_append (p : ℚ) (xs ys : List Emitted) :
    countTR p (xs ++ ys) = countTR p xs + countTR p ys := by
  simp [countTR]

/-- An empty delivery list is trivially separated. -/
@[simp]
theorem sepFrom_nil (c : ℤ) (l : Option ℤ) : SepFrom c l [] := by
  cases l <;> exact trivial

/-- Folding `lastTime` over a concatenation. -/
theorem lastTime_append (l : Option ℤ) (xs ys : List ℤ) :
    lastTime l (xs ++ ys) = lastTime (lastTime l xs) ys := by
  induction xs generalizing l with
  | nil => rfl
  | cons t ts ih => simp [lastTime, ih]

/-- Separation chains compose along concatenation. -/
theorem sepFrom_append {c : ℤ} {l : Option ℤ} {xs ys : List ℤ}
    (hx : SepFrom c l xs) (hy : SepFrom c (lastTime l xs) ys) :
    SepFrom c l (xs ++ ys) := by
  induction xs generalizing l with
  | nil => exact hy
  | cons t ts ih =>
    cases l with
    | none => exact ih hx hy
    | some a => exact ⟨hx.1, ih hx.2 hy⟩

/-- Every instant chained after `some a` lies at least `c` above `a`
(for a non-negative cooldown). -/
theorem sepFrom_bound {c a : ℤ} (hc : 0 ≤ c) {ts : List ℤ}
    (h : SepFrom c (some a) ts) : ∀ b ∈ ts, a + c ≤ b := by
  induction ts generalizing a with
  | nil => intro b hb; cases hb
  | cons t ts ih =>
    intro b hb
    rcases List.mem_cons.mp hb with rfl | hb
    · have h1 := h.1
      omega
    · have := ih h.2 b hb
      have h1 := h.1
      omega

/-- A separation chain yields pairwise separation of all delivery
instants, for a non-negative cooldown. -/
theorem sepFrom_pairwise {c : ℤ} (hc : 0 ≤ c) {l : Option ℤ} {ts : List ℤ}
    (h : SepFrom c l ts) : List.Pairwise (fun x y => c ≤ y - x) ts := by
  induction ts generalizing l with
  | nil => exact List.Pairwise.nil
  | cons t ts ih =>
    have htail : SepFrom c (some t) ts := by
      cases l with
      | none => exact h
      | some a => exact h.2
    refine List.pairwise_cons.mpr ⟨?_, ih htail⟩
    intro b hb
    have := sepFrom_bound hc htail b hb
    omega

/-! ### Lemmas about `send_notification` (`src/monitor.py`) -/

/-- `send_notification` never touches any field other than
`last_notification_time`. -/
@[simp]
theorem sendNotification_state (c n : ℤ) (s : Stock) (k : AlertKind) (cr : Bool)
    (o : List Bool) :
    ((sendNotification c n s k cr o).1.target_triggered = s.target_triggered) ∧
    ((sendNotification c n s k cr o).1.target_prices = s.target_prices) ∧
    ((sendNotification c n s k cr o).1.current_price = s.current_price) ∧
    ((sendNotification c n s k cr o).1.change_percent = s.change_percent) ∧
    ((sendNotification c n s k cr o).1.amount = s.amount) ∧
    ((sendNotification c n s k cr o).1.start_amount = s.start_amount) ∧
    ((sendNotification c n s k cr o).1.last_minute = s.last_minute) ∧
    ((sendNotification c n s k cr o).1.volume_threshold = s.volume_threshold) ∧
    ((sendNotification c n s k cr o).1.price_alert_threshold = s.price_alert_threshold) ∧
    ((sendNotification c n s k cr o).1.price_change_threshold = s.price_change_threshold) := by
  unfold sendNotification
  split_ifs <;> exact ⟨rfl, rfl, rfl, rfl, rfl, rfl, rfl, rfl, rfl, rfl⟩

/-- `send_notification` records exactly one candidate: the requested kind,
at the current instant, delivered exactly when the cooldown admits it and
the platform dispatch does not raise. -/
theorem sendNotification_emit (c n : ℤ) (s : Stock) (k : AlertKind) (cr : Bool)
    (o : List Bool) :
    (sendNotification c n s k cr o).2.2 =
      [⟨k, cr, n, canSendNotification c n s && o.headD true⟩] := by
  unfold sendNotification
  split_ifs with h1 h2 <;> simp_all

/-- The new `last_notification_time` is the fold of the delivered instants
over the old one. -/
theorem sendNotification_lastTime (c n : ℤ) (s : Stock) (k : AlertKind) (cr : Bool)
    (o : List Bool) :
    (sendNotification c n s k cr o).1.last_notification_time =
      lastTime s.last_notification_time
        (deliveredTimes (sendNotification c n s k cr o).2.2) := by
  unfold sendNotification
  split_ifs with h1 h2 <;> simp [deliveredTimes, lastTime]

/-- The delivered instants of one `send_notification` call respect the
cooldown separation from the previous notification timestamp. -/
theorem sendNotification_sep (c n : ℤ) (s : Stock) (k : AlertKind) (cr : Bool)
    (o : List Bool) :
    SepFrom c s.last_notification_time
      (deliveredTimes (sendNotification c n s k cr o).2.2) := by
  unfold sendNotification
  split_ifs with h1 h2
  · cases hl : s.last_notification_time with
    | none => simp [deliveredTimes, SepFrom]
    | some t =>
      have : c ≤ n - t := by
        have := h1
        rw [canSendNotification, hl] at this
        exact of_decide_eq_true this
      simp [deliveredTimes, SepFrom, this]
  · simp [deliveredTimes, SepFrom]
  · simp [deliveredTimes, SepFrom]

/-! ### Lemmas about the blocks of `check_stock_alerts` (`src/monitor.py`) -/

/-- The minute-boundary block only touches `start_amount` and
`last_minute`, and touches them exactly when `second == 0` in a fresh
minute. -/
@[simp]
theorem baselineStage_state (m sec : ℤ) (s : Stock) :
    ((baselineStage m sec s).target_triggered = s.target_triggered) ∧
    ((baselineStage m sec s).target_prices = s.target_prices) ∧
    ((baselineStage m sec s).current_price = s.current_price) ∧
    ((baselineStage m sec s).change_percent = s.change_percent) ∧
    ((baselineStage m sec s).amount = s.amount) ∧
    ((baselineStage m sec s).last_notification_time = s.last_notification_time) ∧
    ((baselineStage m sec s).volume_threshold = s.volume_threshold) ∧
    ((baselineStage m sec s).price_alert_threshold = s.price_alert_threshold) ∧
    ((baselineStage m sec s).price_change_threshold = s.price_change_threshold) ∧
    ((baselineStage m sec s).start_amount =
      if sec = 0 ∧ m ≠ s.last_minute then s.amount else s.start_amount) ∧
    ((baselineStage m sec s).last_minute =
      if sec = 0 ∧ m ≠ s.last_minute then m else s.last_minute) := by
  unfold baselineStage
  split_ifs <;> exact ⟨rfl, rfl, rfl, rfl, rfl, rfl, rfl, rfl, rfl, rfl, rfl⟩

/-- The volume block never touches the price fields, the targets, the
thresholds or the minute record; `start_amount` is re-assigned to the
current amount exactly when the spike condition holds. -/
@[simp]
theorem volumeStage_state (c n sec : ℤ) (s : Stock) (o : List Bool) :
    ((volumeStage c n sec s o).1.target_triggered = s.target_triggered) ∧
    ((volumeStage c n sec s o).1.target_prices = s.target_prices) ∧
    ((volumeStage c n sec s o).1.current_price = s.current_price) ∧
    ((volumeStage c n sec s o).1.change_percent = s.change_percent) ∧
    ((volumeStage c n sec s o).1.amount = s.amount) ∧
    ((volumeStage c n sec s o).1.last_minute = s.last_minute) ∧
    ((volumeStage c n sec s o).1.volume_threshold = s.volume_threshold) ∧
    ((volumeStage c n sec s o).1.price_alert_threshold = s.price_alert_threshold) ∧
    ((volumeStage c n sec s o).1.price_change_threshold = s.price_change_threshold) ∧
    ((volumeStage c n sec s o).1.start_amount =
      if 58 ≤ sec ∧ sec ≤ 59 ∧ 0 < s.start_amount ∧
          s.volume_threshold < s.amount - s.start_amount
      then s.amount else s.start_amount) := by
  by_cases h1 : 58 ≤ sec ∧ sec ≤ 59 ∧ 0 < s.start_amount
  · by_cases h2 : s.volume_threshold < s.amount - s.start_amount
    · have hs := sendNotification_state c n s AlertKind.volumeSpike false o
      have hif : 58 ≤ sec ∧ sec ≤ 59 ∧ 0 < s.start_amount ∧
          s.volume_threshold < s.amount - s.start_amount := ⟨h1.1, h1.2.1, h1.2.2, h2⟩
      simp only [volumeStage, if_pos h1, if_pos h2, if_pos hif]
      exact ⟨hs.1, hs.2.1, hs.2.2.1, hs.2.2.2.1, hs.2.2.2.2.1, hs.2.2.2.2.2.2.1,
        hs.2.2.2.2.2.2.2.1, hs.2.2.2.2.2.2.2.2.1, hs.2.2.2.2.2.2.2.2.2, hs.2.2.2.2.1⟩
    · have hif : ¬(58 ≤ sec ∧ sec ≤ 59 ∧ 0 < s.start_amount ∧
          s.volume_threshold < s.amount - s.start_amount) := fun hx => h2 hx.2.2.2
      simp only [volumeStage, if_pos h1, if_neg h2, if_neg hif]
      simp
  · have hif : ¬(58 ≤ sec ∧ sec ≤ 59 ∧ 0 < s.start_amount ∧
        s.volume_threshold < s.amount - s.start_amount) := fun hx => h1 ⟨hx.1, hx.2.1, hx.2.2.1⟩
    simp only [volumeStage, if_neg h1, if_neg hif]
    simp

/-- Candidates emitted by the volume block are VolumeSpike candidates at
the current instant — in particular no TargetReached candidate. -/
theorem volumeStage_emit (c n sec : ℤ) (s : Stock) (o : List Bool) :
    (countTR p (volumeStage c n sec s o).2.2 = 0) ∧
    (∀ e ∈ (volumeStage c n sec s o).2.2, e.time = n ∧ e.kind = AlertKind.volumeSpike) := by
  unfold volumeStage
  split_ifs
  · rw [sendNotification_emit]
    constructor
    · simp [countTR]
    · intro e he
      simp only [List.mem_singleton] at he
      subst he
      exact ⟨rfl, rfl⟩
  · exact ⟨rfl, by intro e he; cases he⟩
  · exact ⟨rfl, by intro e he; cases he⟩

/-- Cooldown bookkeeping of the volume block. -/
theorem volumeStage_cooldown (c n sec : ℤ) (s : Stock) (o : List Bool) :
    SepFrom c s.last_notification_time
      (deliveredTimes (volumeStage c n sec s o).2.2) ∧
    (volumeStage c n sec s o).1.last_notification_time =
      lastTime s.last_notification_time
        (deliveredTimes (volumeStage c n sec s o).2.2) := by
  unfold volumeStage
  split_ifs
  · exact ⟨sendNotification_sep c n s _ false o, sendNotification_lastTime c n s _ false o⟩
  · exact ⟨by simp [deliveredTimes, SepFrom], rfl⟩
  · exact ⟨by simp [deliveredTimes, SepFrom], rfl⟩

/-- The price-alert block only touches `last_notification_time`. -/
@[simp]
theorem priceAlertStage_state (c n : ℤ) (s : Stock) (o : List Bool) :
    ((priceAlertStage c n s o).1.target_triggered = s.target_triggered) ∧
    ((priceAlertStage c n s o).1.target_prices = s.target_prices) ∧
    ((priceAlertStage c n s o).1.current_price = s.current_price) ∧
    ((priceAlertStage c n s o).1.change_percent = s.change_percent) ∧
    ((priceAlertStage c n s o).1.amount = s.amount) ∧
    ((priceAlertStage c n s o).1.start_amount = s.start_amount) ∧
    ((priceAlertStage c n s o).1.last_minute = s.last_minute) ∧
    ((priceAlertStage c n s o).1.volume_threshold = s.volume_threshold) ∧
    ((priceAlertStage c n s o).1.price_alert_threshold = s.price_alert_threshold) ∧
    ((priceAlertStage c n s o).1.price_change_threshold = s.price_change_threshold) := by
  have hs := sendNotification_state c n s AlertKind.priceMove false o
  unfold priceAlertStage
  split_ifs
  · exact ⟨hs.1, hs.2.1, hs.2.2.1, hs.2.2.2.1, hs.2.2.2.2.1, hs.2.2.2.2.2.1,
      hs.2.2.2.2.2.2.1, hs.2.2.2.2.2.2.2.1, hs.2.2.2.2.2.2.2.2.1, hs.2.2.2.2.2.2.2.2.2⟩
  · exact ⟨rfl, rfl, rfl, rfl, rfl, rfl, rfl, rfl, rfl, rfl⟩

/-- Emissions of the price-alert block: a PriceMove candidate exactly when
the threshold is crossed, never a TargetReached one. -/
theorem priceAlertStage_emit (c n : ℤ) (s : Stock) (o : List Bool) :
    (countTR p (priceAlertStage c n s o).2.2 = 0) ∧
    (∀ e ∈ (priceAlertStage c n s o).2.2, e.time = n ∧ e.kind = AlertKind.priceMove) ∧
    (s.price_alert_threshold < |s.change_percent| →
      ∃ e ∈ (priceAlertStage c n s o).2.2, e.kind = AlertKind.priceMove) := by
  unfold priceAlertStage
  split_ifs with h1
  · rw [sendNotification_emit]
    refine ⟨by simp [countTR], ?_, ?_⟩
    · intro e he
      simp only [List.mem_singleton] at he
      subst he
      exact ⟨rfl, rfl⟩
    · intro _
      exact ⟨_, List.mem_singleton_self _, rfl⟩
  · refine ⟨rfl, ?_, ?_⟩
    · intro e he; cases he
    · intro hx; exact absurd hx h1

/-- Cooldown bookkeeping of the price-alert block. -/
theorem priceAlertStage_cooldown (c n : ℤ) (s : Stock) (o : List Bool) :
    SepFrom c s.last_notification_time
      (deliveredTimes (priceAlertStage c n s o).2.2) ∧
    (priceAlertStage c n s o).1.last_notification_time =
      lastTime s.last_notification_time
        (deliveredTimes (priceAlertStage c n s o).2.2) := by
  unfold priceAlertStage
  split_ifs
  · exact ⟨sendNotification_sep c n s _ false o, sendNotification_lastTime c n s _ false o⟩
  · exact ⟨by simp [deliveredTimes, SepFrom], rfl⟩

/-- The price-warning block only touches `last_notification_time`. -/
@[simp]
theorem priceWarningStage_state (c n : ℤ) (s : Stock) (o : List Bool) :
    ((priceWarningStage c n s o).1.target_triggered = s.target_triggered) ∧
    ((priceWarningStage c n s o).1.target_prices = s.target_prices) ∧
    ((priceWarningStage c n s o).1.current_price = s.current_price) ∧
    ((priceWarningStage c n s o).1.change_percent = s.change_percent) ∧
    ((priceWarningStage c n s o).1.amount = s.amount) ∧
    ((priceWarningStage c n s o).1.start_amount = s.start_amount) ∧
    ((priceWarningStage c n s o).1.last_minute = s.last_minute) ∧
    ((priceWarningStage c n s o).1.volume_threshold = s.volume_threshold) ∧
    ((priceWarningStage c n s o).1.price_alert_threshold = s.price_alert_threshold) ∧
    ((priceWarningStage c n s o).1.price_change_threshold = s.price_change_threshold) := by
  have hs := sendNotification_state c n s AlertKind.priceWarning true o
  unfold priceWarningStage
  split_ifs
  · exact ⟨hs.1, hs.2.1, hs.2.2.1, hs.2.2.2.1, hs.2.2.2.2.1, hs.2.2.2.2.2.1,
      hs.2.2.2.2.2.2.1, hs.2.2.2.2.2.2.2.1, hs.2.2.2.2.2.2.2.2.1, hs.2.2.2.2.2.2.2.2.2⟩
  · exact ⟨rfl, rfl, rfl, rfl, rfl, rfl, rfl, rfl, rfl, rfl⟩

/-- Emissions of the price-warning block: a critical PriceWarning candidate
exactly when the threshold is crossed, never a TargetReached one. -/
theorem priceWarningStage_emit (c n : ℤ) (s : Stock) (o : List Bool) :
    (countTR p (priceWarningStage c n s o).2.2 = 0) ∧
    (∀ e ∈ (priceWarningStage c n s o).2.2, e.time = n ∧ e.kind = AlertKind.priceWarning) ∧
    (s.price_change_threshold < |s.change_percent| →
      ∃ e ∈ (priceWarningStage c n s o).2.2, e.kind = AlertKind.priceWarning ∧
        e.critical = true) := by
  unfold priceWarningStage
  split_ifs with h1
  · rw [sendNotification_emit]
    refine ⟨by simp [countTR], ?_, ?_⟩
    · intro e he
      simp only [List.mem_singleton] at he
      subst he
      exact ⟨rfl, rfl⟩
    · intro _
      exact ⟨_, List.mem_singleton_self _, rfl, rfl⟩
  · refine ⟨rfl, ?_, ?_⟩
    · intro e he; cases he
    · intro hx; exact absurd hx h1

/-- Cooldown bookkeeping of the price-warning block. -/
theorem priceWarningStage_cooldown (c n : ℤ) (s : Stock) (o : List Bool) :
    SepFrom c s.last_notification_time
      (deliveredTimes (priceWarningStage c n s o).2.2) ∧
    (priceWarningStage c n s o).1.last_notification_time =
      lastTime s.last_notification_time
        (deliveredTimes (priceWarningStage c n s o).2.2) := by
  unfold priceWarningStage
  split_ifs
  · exact ⟨sendNotification_sep c n s _ true o, sendNotification_lastTime c n s _ true o⟩
  · exact ⟨by simp [deliveredTimes, SepFrom], rfl⟩

/-! ### Lemmas about the target-price block -/

/-- The target block leaves all non-notification, non-flag state alone. -/
@[simp]
theorem checkTargets_state (c n : ℤ) (ts : List ℚ) (s : Stock) (o : List Bool) :
    ((checkTargets c n ts s o).1.current_price = s.current_price) ∧
    ((checkTargets c n ts s o).1.target_prices = s.target_prices) ∧
    ((checkTargets c n ts s o).1.change_percent = s.change_percent) ∧
    ((checkTargets c n ts s o).1.amount = s.amount) ∧
    ((checkTargets c n ts s o).1.start_amount = s.start_amount) ∧
    ((checkTargets c n ts s o).1.last_minute = s.last_minute) := by
  induction ts generalizing s o with
  | nil => exact ⟨rfl, rfl, rfl, rfl, rfl, rfl⟩
  | cons q rest ih =>
    by_cases hq : s.target_triggered q = false ∧ q ≤ s.current_price
    · simp only [checkTargets, if_pos hq]
      simp [ih]
    · simp only [checkTargets, if_neg hq]
      exact ih s o

/-- Flag evolution through the target block: a flag ends up set iff it was
already set, or its price is in the scanned list and the current price has
reached it. -/
theorem checkTargets_flag (c n : ℤ) (ts : List ℚ) (s : Stock) (o : List Bool) (p : ℚ) :
    (checkTargets c n ts s o).1.target_triggered p =
      (s.target_triggered p || decide (p ∈ ts ∧ p ≤ s.current_price)) := by
  induction ts generalizing s o with
  | nil => simp [checkTargets]
  | cons q rest ih =>
    by_cases hq : s.target_triggered q = false ∧ q ≤ s.current_price
    · simp only [checkTargets, if_pos hq]
      rw [ih]
      by_cases hpq : p = q
      · subst hpq
        simp [hq.1, hq.2, List.mem_cons]
      · simp [hpq, List.mem_cons]
    · simp only [checkTargets, if_neg hq]
      rw [ih]
      by_cases hpq : p = q
      · subst hpq
        rcases not_and_or.mp hq with h | h
        · have hpt : s.target_triggered p = true := by
            cases hx : s.target_triggered p with
            | false => exact absurd hx h
            | true => rfl
          simp [hpt]
        · simp [h, List.mem_cons]
      · simp [hpq, List.mem_cons]

/-- TargetReached counting through the target block: a candidate for `p`
is emitted exactly once when `p` is a scanned target price, its flag is
still clear, and the current price has reached it; otherwise never. -/
theorem checkTargets_countTR (c n : ℤ) (ts : List ℚ) (s : Stock) (o : List Bool) (p : ℚ) :
    countTR p (checkTargets c n ts s o).2.2 =
      if p ∈ ts ∧ s.target_triggered p = false ∧ p ≤ s.current_price then 1 else 0 := by
  induction ts generalizing s o with
  | nil => simp [checkTargets, countTR]
  | cons q rest ih =>
    by_cases hq : s.target_triggered q = false ∧ q ≤ s.current_price
    · simp only [checkTargets, if_pos hq]
      rw [countTR_append, ih]
      by_cases hpq : p = q
      · subst hpq
        rw [sendNotification_emit]
        simp [countTR, hq.1, hq.2, List.mem_cons]
      · rw [sendNotification_emit]
        simp [countTR, List.mem_cons, hpq, Ne.symm hpq]
    · simp only [checkTargets, if_neg hq]
      rw [ih]
      by_cases hpq : p = q
      · subst hpq
        rcases not_and_or.mp hq with h | h
        · have hpt : s.target_triggered p = true := by
            cases hx : s.target_triggered p with
            | false => exact absurd hx h
            | true => rfl
          simp [hpt]
        · simp [h]
      · simp [hpq, List.mem_cons]

/-- Cooldown bookkeeping through the target block. -/
theorem checkTargets_cooldown (c n : ℤ) (ts : List ℚ) (s : Stock) (o : List Bool) :
    SepFrom c s.last_notification_time
      (deliveredTimes (checkTargets c n ts s o).2.2) ∧
    (checkTargets c n ts s o).1.last_notification_time =
      lastTime s.last_notification_time
        (deliveredTimes (checkTargets c n ts s o).2.2) := by
  induction ts generalizing s o with
  | nil => exact ⟨sepFrom_nil c s.last_notification_time, rfl⟩
  | cons q rest ih =>
    by_cases hq : s.target_triggered q = false ∧ q ≤ s.current_price
    · simp only [checkTargets, if_pos hq]
      rw [deliveredTimes_append]
      have h1s := sendNotification_sep c n
        { s with target_triggered := fun x => if x = q then true else s.target_triggered x }
        (AlertKind.targetReached q) true o
      have h1l := sendNotification_lastTime c n
        { s with target_triggered := fun x => if x = q then true else s.target_triggered x }
        (AlertKind.targetReached q) true o
      have h2 := ih (sendNotification c n
        { s with target_triggered := fun x => if x = q then true else s.target_triggered x }
        (AlertKind.targetReached q) true o).1
        (sendNotification c n
        { s with target_triggered := fun x => if x = q then true else s.target_triggered x }
        (AlertKind.targetReached q) true o).2.1
      constructor
      · exact sepFrom_append h1s (by rw [← h1l]; exact h2.1)
      · rw [lastTime_append, ← h1l]
        exact h2.2
    · simp only [checkTargets, if_neg hq]
      exact ih s o

/-- Every candidate emitted by the target block carries the tick instant
and a TargetReached kind for a scanned target. -/
theorem checkTargets_times (c n : ℤ) (ts : List ℚ) (s : Stock) (o : List Bool) :
    ∀ e ∈ (checkTargets c n ts s o).2.2, e.time = n := by
  induction ts generalizing s o with
  | nil => intro e he; cases he
  | cons q rest ih =>
    by_cases hq : s.target_triggered q = false ∧ q ≤ s.current_price
    · simp only [checkTargets, if_pos hq]
      intro e he
      rw [sendNotification_emit] at he
      rcases List.mem_append.mp he with h | h
      · simp only [List.mem_singleton] at h
        subst h
        rfl
      · exact ih _ _ e h
    · simp only [checkTargets, if_neg hq]
      exact ih s o

/-! ### Lemmas about `check_stock_alerts` as a whole (`src/monitor.py`) -/

/-- Sequential composition of two cooldown-bookkeeping steps. -/
theorem cooldown_glue {c : ℤ} {l1 l2 l3 : Option ℤ} {a b : List ℤ}
    (h1 : SepFrom c l1 a) (e1 : l2 = lastTime l1 a)
    (h2 : SepFrom c l2 b) (e2 : l3 = lastTime l2 b) :
    SepFrom c l1 (a ++ b) ∧ l3 = lastTime l1 (a ++ b) := by
  constructor
  · exact sepFrom_append h1 (e1 ▸ h2)
  · rw [lastTime_append, ← e1]
    exact e2

/-- `check_stock_alerts` never changes the configured targets, the price
fields or the cumulative amount. -/
@[simp]
theorem checkStockAlerts_state (c : ℤ) (s : Stock) (m sec n : ℤ) (o : List Bool) :
    ((checkStockAlerts c s m sec n o).1.target_prices = s.target_prices) ∧
    ((checkStockAlerts c s m sec n o).1.current_price = s.current_price) ∧
    ((checkStockAlerts c s m sec n o).1.change_percent = s.change_percent) ∧
    ((checkStockAlerts c s m sec n o).1.amount = s.amount) := by
  simp only [checkStockAlerts]
  simp

/-- Flag evolution through one whole `check_stock_alerts` call. -/
theorem checkStockAlerts_flag (c : ℤ) (s : Stock) (m sec n : ℤ) (o : List Bool) (p : ℚ) :
    (checkStockAlerts c s m sec n o).1.target_triggered p =
      (s.target_triggered p ||
        decide (p ∈ s.target_prices ∧ p ≤ s.current_price)) := by
  simp only [checkStockAlerts]
  rw [checkTargets_flag]
  simp

/-- TargetReached counting through one whole `check_stock_alerts` call:
only the target block can emit such a candidate, and it does so exactly
once, when the target is configured, unfired, and reached. -/
theorem checkStockAlerts_countTR (c : ℤ) (s : Stock) (m sec n : ℤ) (o : List Bool) (p : ℚ) :
    countTR p (checkStockAlerts c s m sec n o).2.2 =
      if p ∈ s.target_prices ∧ s.target_triggered p = false ∧ p ≤ s.current_price
      then 1 else 0 := by
  simp only [checkStockAlerts]
  rw [countTR_append, countTR_append, countTR_append, checkTargets_countTR,
    (volumeStage_emit (p := p) c n sec (baselineStage m sec s) o).1,
    (priceAlertStage_emit (p := p) c n _ _).1,
    (priceWarningStage_emit (p := p) c n _ _).1]
  simp

/-- Cooldown bookkeeping through one whole `check_stock_alerts` call. -/
theorem checkStockAlerts_cooldown (c : ℤ) (s : Stock) (m sec n : ℤ) (o : List Bool) :
    SepFrom c s.last_notification_time
      (deliveredTimes (checkStockAlerts c s m sec n o).2.2) ∧
    (checkStockAlerts c s m sec n o).1.last_notification_time =
      lastTime s.last_notification_time
        (deliveredTimes (checkStockAlerts c s m sec n o).2.2) := by
  simp only [checkStockAlerts]
  have hb : (baselineStage m sec s).last_notification_time = s.last_notification_time :=
    (baselineStage_state m sec s).2.2.2.2.2.1
  have h2 := volumeStage_cooldown c n sec (baselineStage m sec s) o
  rw [hb] at h2
  have h3 := priceAlertStage_cooldown c n (volumeStage c n sec (baselineStage m sec s) o).1
    (volumeStage c n sec (baselineStage m sec s) o).2.1
  have h4 := priceWarningStage_cooldown c n
    (priceAlertStage c n (volumeStage c n sec (baselineStage m sec s) o).1
      (volumeStage c n sec (baselineStage m sec s) o).2.1).1
    (priceAlertStage c n (volumeStage c n sec (baselineStage m sec s) o).1
      (volumeStage c n sec (baselineStage m sec s) o).2.1).2.1
  have h5 := checkTargets_cooldown c n
    (priceWarningStage c n
      (priceAlertStage c n (volumeStage c n sec (baselineStage m sec s) o).1
        (volumeStage c n sec (baselineStage m sec s) o).2.1).1
      (priceAlertStage c n (volumeStage c n sec (baselineStage m sec s) o).1
        (volumeStage c n sec (baselineStage m sec s) o).2.1).2.1).1.target_prices
    (priceWarningStage c n
      (priceAlertStage c n (volumeStage c n sec (baselineStage m sec s) o).1
        (volumeStage c n sec (baselineStage m sec s) o).2.1).1
      (priceAlertStage c n (volumeStage c n sec (baselineStage m sec s) o).1
        (volumeStage c n sec (baselineStage m sec s) o).2.1).2.1).1
    (priceWarningStage c n
      (priceAlertStage c n (volumeStage c n sec (baselineStage m sec s) o).1
        (volumeStage c n sec (baselineStage m sec s) o).2.1).1
      (priceAlertStage c n (volumeStage c n sec (baselineStage m sec s) o).1
        (volumeStage c n sec (baselineStage m sec s) o).2.1).2.1).2.1
  have g2 := cooldown_glue h2.1 h2.2 h3.1 h3.2
  have g3 := cooldown_glue g2.1 g2.2 h4.1 h4.2
  have g4 := cooldown_glue g3.1 g3.2 h5.1 h5.2
  constructor
  · have := g4.1
    rw [deliveredTimes_append, deliveredTimes_append, deliveredTimes_append]
    rw [← List.append_assoc, ← List.append_assoc]
    exact this
  · have := g4.2
    rw [deliveredTimes_append, deliveredTimes_append, deliveredTimes_append]
    rw [← List.append_assoc, ← List.append_assoc]
    exact this

/-- Every candidate of one `check_stock_alerts` call carries the tick
instant as its time stamp. -/
theorem checkStockAlerts_times (c : ℤ) (s : Stock) (m sec n : ℤ) (o : List Bool) :
    ∀ e ∈ (checkStockAlerts c s m sec n o).2.2, e.time = n := by
  simp only [checkStockAlerts]
  intro e he
  rcases List.mem_append.mp he with h | h
  · exact ((volumeStage_emit (p := 0) c n sec _ o).2 e h).1
  · rcases List.mem_append.mp h with h | h
    · exact ((priceAlertStage_emit (p := 0) c n _ _).2.1 e h).1
    · rcases List.mem_append.mp h with h | h
      · exact ((priceWarningStage_emit (p := 0) c n _ _).2.1 e h).1
      · exact checkTargets_times c n _ _ _ e h

/-- Evolution of `start_amount` and `last_minute` through one
`check_stock_alerts` call: the boundary assignment happens only on a
`second == 0` tick in a new minute, and inside a minute the baseline moves
only when the 58–59 spike branch fires, in which case it is re-assigned to
the current amount. -/
theorem checkStockAlerts_baseline (c : ℤ) (s : Stock) (m sec n : ℤ) (o : List Bool) :
    ((checkStockAlerts c s m sec n o).1.start_amount =
      if sec = 0 ∧ m ≠ s.last_minute then s.amount
      else if 58 ≤ sec ∧ sec ≤ 59 ∧ 0 < s.start_amount ∧
          s.volume_threshold < s.amount - s.start_amount then s.amount
      else s.start_amount) ∧
    ((checkStockAlerts c s m sec n o).1.last_minute =
      if sec = 0 ∧ m ≠ s.last_minute then m else s.last_minute) := by
  simp only [checkStockAlerts]
  by_cases hbd : sec = 0 ∧ m ≠ s.last_minute
  · constructor
    · rw [if_pos hbd]
      have h0 : ¬(58 ≤ sec ∧ sec ≤ 59 ∧
          0 < (baselineStage m sec s).start_amount ∧
          (baselineStage m sec s).volume_threshold <
            (baselineStage m sec s).amount - (baselineStage m sec s).start_amount) := by
        intro hx
        omega
      simp [hbd, h0]
    · simp [hbd]
  · constructor
    · rw [if_neg hbd]
      simp [hbd]
    · simp [hbd]

/-- When both price thresholds are exceeded, `check_stock_alerts` emits a
PriceMove candidate and a PriceWarning candidate in the same call, for any
value of the second field. -/
theorem checkStockAlerts_bothPrices (c : ℤ) (s : Stock) (m sec n : ℤ) (o : List Bool)
    (ha : s.price_alert_threshold < |s.change_percent|)
    (hw : s.price_change_threshold < |s.change_percent|) :
    (∃ e ∈ (checkStockAlerts c s m sec n o).2.2, e.kind = AlertKind.priceMove) ∧
    (∃ e ∈ (checkStockAlerts c s m sec n o).2.2,
      e.kind = AlertKind.priceWarning ∧ e.critical = true) := by
  simp only [checkStockAlerts]
  constructor
  · have ha2 : (volumeStage c n sec (baselineStage m sec s) o).1.price_alert_threshold <
        |(volumeStage c n sec (baselineStage m sec s) o).1.change_percent| := by
      simpa using ha
    obtain ⟨e, he, hk⟩ := (priceAlertStage_emit (p := 0) c n _ _).2.2 ha2
    exact ⟨e, List.mem_append.mpr (Or.inr (List.mem_append.mpr (Or.inl he))), hk⟩
  · have hw2 : (priceAlertStage c n (volumeStage c n sec (baselineStage m sec s) o).1
        (volumeStage c n sec (baselineStage m sec s) o).2.1).1.price_change_threshold <
        |(priceAlertStage c n (volumeStage c n sec (baselineStage m sec s) o).1
          (volumeStage c n sec (baselineStage m sec s) o).2.1).1.change_percent| := by
      simpa using hw
    obtain ⟨e, he, hk⟩ := (priceWarningStage_emit (p := 0) c n _ _).2.2 hw2
    exact ⟨e, List.mem_append.mpr (Or.inr (List.mem_append.mpr (Or.inr
      (List.mem_append.mpr (Or.inl he))))), hk⟩

/-! ### Lemmas about `Stock.update` and whole ticks -/

/-- `Stock.update` never touches the alert bookkeeping (flags, targets,
notification timestamp, baseline, minute); it installs the quote fields
and recomputes `change_percent` only for a positive `last_close`. -/
@[simp]
theorem Stock.update_state (s : Stock) (d : QuoteData) :
    ((s.update d).target_triggered = s.target_triggered) ∧
    ((s.update d).target_prices = s.target_prices) ∧
    ((s.update d).last_notification_time = s.last_notification_time) ∧
    ((s.update d).start_amount = s.start_amount) ∧
    ((s.update d).last_minute = s.last_minute) ∧
    ((s.update d).current_price = d.price) ∧
    ((s.update d).amount = d.amount / 10000) ∧
    ((s.update d).last_close = d.last_close) ∧
    ((s.update d).volume = d.vol) ∧
    ((s.update d).volume_threshold = s.volume_threshold) ∧
    ((s.update d).price_alert_threshold = s.price_alert_threshold) ∧
    ((s.update d).price_change_threshold = s.price_change_threshold) ∧
    ((s.update d).change_percent =
      if 0 < d.last_close then round2 ((d.price - d.last_close) / d.last_close * 100)
      else s.change_percent) := by
  by_cases h : 0 < d.last_close
  · simp [Stock.update, h]
  · simp [Stock.update, h]

/-- Flag evolution through one whole tick (update then alerts). -/
theorem processTick_flag (c : ℤ) (s : Stock) (t : TickData) (p : ℚ) :
    (processTick c s t).1.target_triggered p =
      (s.target_triggered p ||
        decide (p ∈ s.target_prices ∧ p ≤ t.quote.price)) := by
  simp only [processTick]
  rw [checkStockAlerts_flag]
  simp

/-- TargetReached counting through one whole tick. -/
theorem processTick_countTR (c : ℤ) (s : Stock) (t : TickData) (p : ℚ) :
    countTR p (processTick c s t).2 =
      if p ∈ s.target_prices ∧ s.target_triggered p = false ∧ p ≤ t.quote.price
      then 1 else 0 := by
  simp only [processTick]
  rw [checkStockAlerts_countTR]
  simp

/-- Cooldown bookkeeping through one whole tick. -/
theorem processTick_cooldown (c : ℤ) (s : Stock) (t : TickData) :
    SepFrom c s.last_notification_time (deliveredTimes (processTick c s t).2) ∧
    (processTick c s t).1.last_notification_time =
      lastTime s.last_notification_time (deliveredTimes (processTick c s t).2) := by
  simp only [processTick]
  have h := checkStockAlerts_cooldown c (Stock.update s t.quote) t.minute t.second t.now
    t.oracle
  have hu : (Stock.update s t.quote).last_notification_time = s.last_notification_time :=
    (Stock.update_state s t.quote).2.2.1
  rw [hu] at h
  exact h

/-- Tick processing never changes the configured targets. -/
@[simp]
theorem processTick_targets (c : ℤ) (s : Stock) (t : TickData) :
    (processTick c s t).1.target_prices = s.target_prices := by
  simp only [processTick]
  simp

/-! ### Lemmas about whole runs -/

/-- Cooldown bookkeeping over a whole run. -/
theorem processTicks_cooldown (c : ℤ) (s : Stock) (ts : List TickData) :
    SepFrom c s.last_notification_time (deliveredTimes (processTicks c s ts).2) ∧
    (processTicks c s ts).1.last_notification_time =
      lastTime s.last_notification_time (deliveredTimes (processTicks c s ts).2) := by
  induction ts generalizing s with
  | nil => exact ⟨sepFrom_nil c s.last_notification_time, rfl⟩
  | cons t ts ih =>
    simp only [processTicks]
    have h1 := processTick_cooldown c s t
    have h2 := ih (processTick c s t).1
    have g := cooldown_glue h1.1 h1.2 h2.1 h2.2
    rw [deliveredTimes_append]
    exact g

/-- After the flag of a target is set, the rest of the run emits no
TargetReached candidate for it and the flag stays set. -/
theorem processTicks_flagged (c : ℤ) (ts : List TickData) (s : Stock) (p : ℚ)
    (h : s.target_triggered p = true) :
    countTR p (processTicks c s ts).2 = 0 ∧
    (processTicks c s ts).1.target_triggered p = true := by
  induction ts generalizing s with
  | nil => exact ⟨rfl, h⟩
  | cons t ts ih =>
    simp only [processTicks]
    rw [countTR_append, processTick_countTR]
    have hflag : (processTick c s t).1.target_triggered p = true := by
      rw [processTick_flag, h]
      rfl
    have h2 := ih (processTick c s t).1 hflag
    rw [if_neg (by simp [h]), h2.1]
    exact ⟨rfl, h2.2⟩

/-- A target whose flag is clear fires at most once over any run. -/
theorem processTicks_atMostOnce (c : ℤ) (ts : List TickData) (s : Stock) (p : ℚ)
    (h : s.target_triggered p = false) :
    countTR p (processTicks c s ts).2 ≤ 1 := by
  induction ts generalizing s with
  | nil => exact Nat.zero_le 1
  | cons t ts ih =>
    simp only [processTicks]
    rw [countTR_append, processTick_countTR]
    by_cases hc : p ∈ s.target_prices ∧ s.target_triggered p = false ∧ p ≤ t.quote.price
    · rw [if_pos hc]
      have hflag : (processTick c s t).1.target_triggered p = true := by
        rw [processTick_flag, h]
        simp [hc.1, hc.2.2]
      rw [(processTicks_flagged c ts (processTick c s t).1 p hflag).1]
    · rw [if_neg hc]
      have hflag : (processTick c s t).1.target_triggered p = false := by
        rw [processTick_flag, h]
        simp only [Bool.false_or, decide_eq_false_iff_not]
        intro hx
        exact hc ⟨hx.1, h, hx.2⟩
      simpa using ih (processTick c s t).1 hflag

/-- A delivered candidate contributes its time stamp to the delivered
instants. -/
theorem mem_deliveredTimes {es : List Emitted} {e : Emitted}
    (he : e ∈ es) (hd : e.delivered = true) : e.time ∈ deliveredTimes es := by
  simp only [deliveredTimes, List.mem_map]
  exact ⟨e, List.mem_filter.mpr ⟨he, hd⟩, rfl⟩

/-- Delivered instants come from emitted candidates. -/
theorem deliveredTimes_sub {es : List Emitted} {y : ℤ}
    (hy : y ∈ deliveredTimes es) : ∃ e ∈ es, e.time = y := by
  simp only [deliveredTimes, List.mem_map, List.mem_filter] at hy
  obtain ⟨e, ⟨he, _⟩, ht⟩ := hy
  exact ⟨e, he, ht⟩

/-! ### Lemmas about the `src/stock_monitor.py` variant -/

/-- `send_notification` of `src/stock_monitor.py` never touches any field
other than `last_notification_time`. -/
@[simp]
theorem smSendNotification_state (c n : ℤ) (s : SMStock) (k : AlertKind) (cr : Bool)
    (o : List Bool) :
    ((smSendNotification c n s k cr o).1.change_percent = s.change_percent) ∧
    ((smSendNotification c n s k cr o).1.price_alert_threshold = s.price_alert_threshold) ∧
    ((smSendNotification c n s k cr o).1.price_change_threshold = s.price_change_threshold) ∧
    ((smSendNotification c n s k cr o).1.start_amount = s.start_amount) ∧
    ((smSendNotification c n s k cr o).1.amount = s.amount) := by
  unfold smSendNotification
  split_ifs <;> exact ⟨rfl, rfl, rfl, rfl, rfl⟩

/-- `send_notification` of `src/stock_monitor.py` records exactly one
candidate of the requested kind. -/
theorem smSendNotification_emit (c n : ℤ) (s : SMStock) (k : AlertKind) (cr : Bool)
    (o : List Bool) :
    (smSendNotification c n s k cr o).2.2 =
      [⟨k, cr, n, smCanSendNotification c n s && o.headD true⟩] := by
  unfold smSendNotification
  split_ifs with h1 h2 <;> simp_all

/-- Outside the `second == 59` volume window, the `elif` chain of the
`stock_monitor.py` variant does reach the price-alert check, so both a
PriceMove and a PriceWarning candidate are emitted when both thresholds
are exceeded. -/
theorem smCheckStockAlerts_bothPrices (c : ℤ) (s : SMStock) (sec n : ℤ) (o : List Bool)
    (hsec : ¬(sec = 59 ∧ 0 < s.start_amount))
    (ha : s.price_alert_threshold < |s.change_percent|)
    (hw : s.price_change_threshold < |s.change_percent|) :
    (∃ e ∈ (smCheckStockAlerts c s sec n o).2.2, e.kind = AlertKind.priceMove) ∧
    (∃ e ∈ (smCheckStockAlerts c s sec n o).2.2,
      e.kind = AlertKind.priceWarning ∧ e.critical = true) := by
  simp only [smCheckStockAlerts]
  by_cases hz : sec = 0
  · have h59 : ¬((sec = 59) ∧
        0 < ({ s with start_amount := s.amount } : SMStock).start_amount) := by
      intro hx
      omega
    rw [if_pos hz, if_neg h59, if_pos ha]
    rw [smSendNotification_emit]
    have hw2 : (smSendNotification c n { s with start_amount := s.amount }
        AlertKind.priceMove false o).1.price_change_threshold <
        |(smSendNotification c n { s with start_amount := s.amount }
          AlertKind.priceMove false o).1.change_percent| := by
      simpa using hw
    rw [if_pos hw2, smSendNotification_emit]
    constructor
    · exact ⟨_, List.mem_append.mpr (Or.inl (List.mem_singleton_self _)), rfl⟩
    · exact ⟨_, List.mem_append.mpr (Or.inr (List.mem_singleton_self _)), rfl, rfl⟩
  · have h59 : ¬(sec = 59 ∧ 0 < s.start_amount) := hsec
    rw [if_neg hz, if_neg h59, if_pos ha, smSendNotification_emit]
    have hw2 : (smSendNotification c n s AlertKind.priceMove false o).1.price_change_threshold <
        |(smSendNotification c n s AlertKind.priceMove false o).1.change_percent| := by
      simpa using hw
    rw [if_pos hw2, smSendNotification_emit]
    constructor
    · exact ⟨_, List.mem_append.mpr (Or.inl (List.mem_singleton_self _)), rfl⟩
    · exact ⟨_, List.mem_append.mpr (Or.inr (List.mem_singleton_self _)), rfl, rfl⟩

/-! ### Lemmas about the network-recovery loop -/

/-- Re-indexing of the exponential backoff list: the sleep after the probe
at offset `r` followed by the sleeps at offsets `r+1, ...` is the sleep
list from offset `r` of one more round. -/
theorem pow_shift_map (base r m : ℕ) :
    base * 2 ^ r :: (List.range m).map (fun i => base * 2 ^ (r + 1 + i)) =
    (List.range (m + 1)).map (fun i => base * 2 ^ (r + i)) := by
  rw [List.range_succ_eq_map, List.map_cons, List.map_map]
  congr 1
  apply List.map_congr_left
  intro a _
  simp only [Function.comp_apply]
  congr 1
  congr 1
  omega

/-- When every probe in the window fails, the recovery loop returns false
and sleeps `base * 2 ^ k` after the `k`-th failed probe (0-based), once per
allowed attempt. -/
theorem recoveryGo_allFail (probes : ℕ → Bool) (base : ℕ) :
    ∀ (f r : ℕ), (∀ k, r ≤ k → k < r + f → probes k = false) →
    recoveryGo probes base f r =
      (false, (List.range f).map fun i => base * 2 ^ (r + i)) := by
  intro f
  induction f with
  | zero => intro r _; rfl
  | succ f ih =>
    intro r h
    have hr : probes r = false := h r le_rfl (by omega)
    simp only [recoveryGo, hr, Bool.false_eq_true, if_false]
    rw [ih (r + 1) (fun k hk1 hk2 => h k (by omega) (by omega))]
    rw [← pow_shift_map base r f]

/-- The recovery loop returns true at the first successful probe, having
slept exactly the backoff delays of the failed probes before it. -/
theorem recoveryGo_firstSuccess (probes : ℕ → Bool) (base : ℕ) :
    ∀ (f r j : ℕ), r ≤ j → j < r + f → probes j = true →
    (∀ k, r ≤ k → k < j → probes k = false) →
    recoveryGo probes base f r =
      (true, (List.range (j - r)).map fun i => base * 2 ^ (r + i)) := by
  intro f
  induction f with
  | zero =>
    intro r j h1 h2 _ _
    exact absurd h2 (by omega)
  | succ f ih =>
    intro r j h1 h2 hj hk
    by_cases hrj : j = r
    · subst hrj
      simp [recoveryGo, hj]
    · have hr : probes r = false := hk r le_rfl (by omega)
      simp only [recoveryGo, hr, Bool.false_eq_true, if_false]
      rw [ih (r + 1) j (by omega) (by omega) hj (fun k hk1 hk2 => hk k (by omega) hk2)]
      have hsub : j - r = (j - (r + 1)) + 1 := by omega
      rw [hsub, ← pow_shift_map base r (j - (r + 1))]

/-! ### Concrete states and tick sequences used as test inputs -/

/-- A `Stock` object as `Stock.__init__` (`src/monitor.py`) builds it from
a config entry: given thresholds and target prices, all triggered flags
start false, prices and amounts start at zero, no notification was sent,
and `last_minute = -1`. -/
def initStock (vt pa pc : ℚ) (tps : List ℚ) : Stock :=
  { volume_threshold := vt, price_alert_threshold := pa, price_change_threshold := pc,
    target_prices := tps, target_triggered := fun _ => false,
    current_price := 0, last_close := 0, volume := 0, amount := 0, change_percent := 0,
    last_notification_time := none, start_amount := 0, last_minute := -1 }

/-- A `Stock` object of `src/stock_monitor.py` as built from a config
entry. -/
def initSMStock (vt pa pc : ℚ) : SMStock :=
  { volume_threshold := vt, price_alert_threshold := pa, price_change_threshold := pc,
    current_price := 0, last_close := 0, volume := 0, amount := 0, change_percent := 0,
    last_notification_time := none, start_amount := 0 }

/-- Two ticks in the same minute: the boundary tick (second 0) and a tick
in the 58–59 window with a volume jump above the threshold. -/
def baselineTickA : TickData := ⟨10, 0, 600, ⟨100, 100, 0, 1000000⟩, [true]⟩

/-- Companion second tick of the baseline scenario (same minute 10,
second 58, amount grown by 100万 > threshold 50). -/
def baselineTickB : TickData := ⟨10, 58, 658, ⟨100, 100, 0, 2000000⟩, [true]⟩

/-- Two ticks, 10 seconds apart, each crossing the 2% price-alert
threshold (previous close 100, price 106). -/
def cooldownTicks : List TickData :=
  [⟨0, 30, 0, ⟨106, 100, 0, 0⟩, [true]⟩, ⟨0, 40, 10, ⟨106, 100, 0, 0⟩, [true]⟩]

/-- Three ticks oscillating around the target price 24: crossing, dipping
below, crossing again. -/
def oscillatingTicks : List TickData :=
  [⟨0, 30, 0, ⟨25, 100, 0, 0⟩, [true, true, true]⟩,
   ⟨0, 31, 10, ⟨20, 100, 0, 0⟩, [true]⟩,
   ⟨1, 32, 70, ⟨25, 100, 0, 0⟩, [true, true]⟩]

/-- The `stock_monitor.py` stock, driven to a reachable state: a second-0
tick captures the baseline 1万, then a fresh quote with previous close 100
and price 106 gives `change_percent = 6`. -/
def smDriven : SMStock :=
  SMStock.update
    (smCheckStockAlerts 60 (SMStock.update (initSMStock 50 2 5) ⟨100, 100, 0, 10000⟩) 0 0 []).1
    ⟨106, 100, 0, 10000⟩

/-- A `monitor.py` stock with `change_percent = 6` (previous close 100,
price 106) and a live minute baseline, to exercise the price checks
inside the 58–59 volume window. -/
def bothTicksStock : Stock :=
  { Stock.update (initStock 50 2 5 []) ⟨106, 100, 0, 10000⟩ with start_amount := 1 }

/-- A stock dictionary and connection flag as `monitor_stocks` holds them. -/
def demoMonitorState : MonitorState := ⟨[(920579, initStock 50 2 3 [24])], true⟩

/-- A stock with one target price 24 whose cooldown is still hot
(`last_notification_time = 0`). -/
def hotStock : Stock :=
  { initStock 50 100 100 [24] with last_notification_time := some 0 }

/-- A tick at instant 10 crossing the target 24, inside the 60-second
cooldown window of `hotStock`. -/
def hotTick : TickData := ⟨0, 30, 10, ⟨25, 100, 0, 0⟩, [true]⟩

/-- A later tick, far outside the cooldown, with the price still above the
target. -/
def lateTicks : List TickData := [⟨0, 31, 200, ⟨25, 100, 0, 0⟩, [true]⟩]

/-- Every candidate of one tick carries the tick instant. -/
theorem processTick_times (c : ℤ) (s : Stock) (t : TickData) :
    ∀ e ∈ (processTick c s t).2, e.time = t.now := by
  simp only [processTick]
  exact checkStockAlerts_times c (Stock.update s t.quote) t.minute t.second t.now t.oracle

/-! ### Claim theorems -/

/-- C1: over any tick sequence, a target price whose flag starts clear
emits its TargetReached candidate at most once; per tick the candidate is
emitted exactly when the target is configured, unfired, and the price of
the tick has reached it (hence on the first such tick); and a set flag is
never reset by a tick. -/
theorem targetReached_at_most_once (cooldown : ℤ) (s : Stock) (ts : List TickData) (p : ℚ)
    (h : s.target_triggered p = false) :
    countTR p (processTicks cooldown s ts).2 ≤ 1 ∧
    (∀ (s0 : Stock) (t : TickData),
      countTR p (processTick cooldown s0 t).2 =
        if p ∈ s0.target_prices ∧ s0.target_triggered p = false ∧ p ≤ t.quote.price
        then 1 else 0) ∧
    (∀ (s0 : Stock) (t : TickData), s0.target_triggered p = true →
      (processTick cooldown s0 t).1.target_triggered p = true) := by
  refine ⟨processTicks_atMostOnce cooldown ts s p h, ?_, ?_⟩
  · intro s0 t
    exact processTick_countTR cooldown s0 t p
  · intro s0 t h0
    rw [processTick_flag, h0]
    rfl

/-- C1 witness: the configured target 24 starts unfired and fires at most
once over a run whose price crosses it, dips below, and crosses again. -/
theorem targetReached_at_most_once_witness :
    (initStock 50 100 100 [24, 49/2, 25]).target_triggered 24 = false ∧
    countTR 24 (processTicks 60 (initStock 50 100 100 [24, 49/2, 25]) oscillatingTicks).2 ≤ 1 :=
  ⟨rfl, (targetReached_at_most_once 60 (initStock 50 100 100 [24, 49/2, 25])
    oscillatingTicks 24 rfl).1⟩

/-- C2: for a non-negative cooldown, the delivered notifications of any
run are pairwise at least `cooldown` seconds apart; and concretely, two
candidate alerts 10 seconds apart under a 60-second cooldown yield exactly
one delivered notification. -/
theorem notification_cooldown_separation :
    (∀ (cooldown : ℤ) (s : Stock) (ts : List TickData), 0 ≤ cooldown →
      List.Pairwise (fun a b => cooldown ≤ b - a)
        (deliveredTimes (processTicks cooldown s ts).2)) ∧
    deliveredTimes (processTicks 60 (initStock 50 2 100 []) cooldownTicks).2 = [0] ∧
    (processTicks 60 (initStock 50 2 100 []) cooldownTicks).2.length = 2 := by
  refine ⟨?_, ?_, ?_⟩
  · intro cooldown s ts hc
    exact sepFrom_pairwise hc (processTicks_cooldown cooldown s ts).1
  · norm_num [processTicks, processTick, Stock.update, checkStockAlerts, baselineStage,
      volumeStage, priceAlertStage, priceWarningStage, checkTargets, sendNotification,
      canSendNotification, initStock, cooldownTicks, round2, intRound, deliveredTimes]
  · norm_num [processTicks, processTick, Stock.update, checkStockAlerts, baselineStage,
      volumeStage, priceAlertStage, priceWarningStage, checkTargets, sendNotification,
      canSendNotification, initStock, cooldownTicks, round2, intRound]

/-- C2 witness: the pairwise-separation law instantiated at the concrete
two-tick run with cooldown 60. -/
theorem notification_cooldown_separation_witness :
    (0 : ℤ) ≤ 60 ∧
    List.Pairwise (fun a b => (60 : ℤ) ≤ b - a)
      (deliveredTimes (processTicks 60 (initStock 50 2 100 []) cooldownTicks).2) :=
  ⟨by decide,
   notification_cooldown_separation.1 60 (initStock 50 2 100 []) cooldownTicks (by decide)⟩

/-- C3 counterexample: after the minute-10 boundary tick the baseline is
100万; a second tick in the same minute (second 58) with a volume spike
re-assigns it to 200万, so `start_amount` is assigned a second time within
the same minute, refuting the claim that it is assigned exactly once per
minute-boundary crossing. -/
theorem baseline_reassigned_within_minute :
    (processTicks 60 (initStock 50 100 100 []) [baselineTickA]).1.start_amount = 100 ∧
    (processTicks 60 (initStock 50 100 100 []) [baselineTickA]).1.last_minute = 10 ∧
    (processTicks 60 (initStock 50 100 100 [])
      [baselineTickA, baselineTickB]).1.start_amount = 200 ∧
    (processTicks 60 (initStock 50 100 100 [])
      [baselineTickA, baselineTickB]).1.last_minute = 10 := by
  refine ⟨?_, ?_, ?_, ?_⟩ <;>
    norm_num [processTicks, processTick, Stock.update, checkStockAlerts, baselineStage,
      volumeStage, priceAlertStage, priceWarningStage, checkTargets, sendNotification,
      canSendNotification, initStock, baselineTickA, baselineTickB, round2, intRound]

/-- C3 corrected: per tick, `start_amount` is assigned at the minute
boundary only when `second == 0` in a new minute; within a minute it is
re-assigned (to the amount of the tick) exactly when the 58–59 volume-spike
branch fires; `last_minute` moves only at the boundary. -/
theorem baseline_reset_characterization (c : ℤ) (s : Stock) (t : TickData) :
    ((processTick c s t).1.start_amount =
      if t.second = 0 ∧ t.minute ≠ s.last_minute then t.quote.amount / 10000
      else if 58 ≤ t.second ∧ t.second ≤ 59 ∧ 0 < s.start_amount ∧
          s.volume_threshold < t.quote.amount / 10000 - s.start_amount
      then t.quote.amount / 10000
      else s.start_amount) ∧
    ((processTick c s t).1.last_minute =
      if t.second = 0 ∧ t.minute ≠ s.last_minute then t.minute else s.last_minute) := by
  simp only [processTick]
  have h := checkStockAlerts_baseline c (Stock.update s t.quote) t.minute t.second t.now
    t.oracle
  constructor
  · rw [h.1]
    simp
  · rw [h.2]
    simp

/-- C4 counterexample: `DataProcessor.parse_data` evaluates the
change-percent quotient with no zero guard, so a quote with
`last_close = 0` raises ZeroDivisionError, refuting the claim that the
evaluation of `change_percent` never divides by zero or raises. -/
theorem parseData_zero_close_raises :
    parseData ⟨106, 0, 0, 50000⟩ = Except.error ParseError.zeroDivision := rfl

/-- C4 corrected: in `Stock.update` a non-positive previous close keeps
`change_percent` at its prior value with no division, while the other
fields of the tick are installed normally, and a positive previous close
gives the rounded ratio; `DataProcessor.parse_data`, by contrast, raises
exactly when the previous close is zero. -/
theorem change_percent_zero_guard (s : Stock) (d : QuoteData) :
    (d.last_close ≤ 0 →
      (s.update d).change_percent = s.change_percent ∧
      (s.update d).current_price = d.price ∧
      (s.update d).amount = d.amount / 10000 ∧
      (s.update d).volume = d.vol) ∧
    (0 < d.last_close →
      (s.update d).change_percent = round2 ((d.price - d.last_close) / d.last_close * 100)) ∧
    (parseData d = Except.error ParseError.zeroDivision ↔ d.last_close = 0) := by
  obtain ⟨h1, h2, h3, h4, h5, h6, h7, h8, h9, h10, h11, h12, h13⟩ := Stock.update_state s d
  refine ⟨?_, ?_, ?_⟩
  · intro hle
    have hnot : ¬ 0 < d.last_close := not_lt.mpr hle
    rw [h13, if_neg hnot]
    exact ⟨rfl, h6, h7, h9⟩
  · intro hpos
    rw [h13, if_pos hpos]
  · unfold parseData
    split_ifs with hz
    · simp [hz]
    · simp [hz]

/-- C4 witness: a quote with previous close −1 keeps the prior
change-percent 7, and the zero-close parse raised exactly because the
previous close was zero. -/
theorem change_percent_zero_guard_witness :
    ((-1 : ℚ) ≤ 0) ∧
    ({ initStock 50 2 3 [] with
        change_percent := 7 }.update ⟨106, -1, 0, 0⟩).change_percent = 7 ∧
    (parseData ⟨106, 0, 0, 50000⟩ = Except.error ParseError.zeroDivision ↔ (0 : ℚ) = 0) :=
  ⟨by norm_num,
   ((change_percent_zero_guard { initStock 50 2 3 [] with change_percent := 7 }
      ⟨106, -1, 0, 0⟩).1 (by norm_num)).1,
   (change_percent_zero_guard { initStock 50 2 3 [] with change_percent := 7 }
      ⟨106, 0, 0, 50000⟩).2.2⟩

/-- C5 counterexample: in the `stock_monitor.py` variant, on a tick with
`second = 59` and a positive baseline, a change-percent of 6 exceeds both
thresholds (2 and 5) yet only the PriceWarning candidate is emitted — the
`elif` chain skips the PriceMove check, refuting the claim for that cited
variant. -/
theorem priceMove_skipped_in_volume_window :
    (smDriven.price_alert_threshold < |smDriven.change_percent|) ∧
    (smDriven.price_change_threshold < |smDriven.change_percent|) ∧
    ((0 : ℚ) < smDriven.start_amount) ∧
    ((smCheckStockAlerts 60 smDriven 59 10 [true, true]).2.2.map (fun e => e.kind) =
      [AlertKind.priceWarning]) := by
  refine ⟨?_, ?_, ?_, ?_⟩ <;>
    norm_num [smDriven, smCheckStockAlerts, SMStock.update, initSMStock, smSendNotification,
      smCanSendNotification, round2, intRound]

/-- C5 corrected: in `monitor.py` the PriceMove and PriceWarning checks
are independent `if`s, so both candidates are emitted in the same tick for
every second value; in the `stock_monitor.py` variant the same holds only
outside ticks with `second = 59` and a positive baseline, where the
PriceMove check is skipped. -/
theorem priceMove_priceWarning_both_fire :
    (∀ (c : ℤ) (s : Stock) (m sec n : ℤ) (o : List Bool),
      s.price_alert_threshold < |s.change_percent| →
      s.price_change_threshold < |s.change_percent| →
      (∃ e ∈ (checkStockAlerts c s m sec n o).2.2, e.kind = AlertKind.priceMove) ∧
      (∃ e ∈ (checkStockAlerts c s m sec n o).2.2,
        e.kind = AlertKind.priceWarning ∧ e.critical = true)) ∧
    (∀ (c : ℤ) (s : SMStock) (sec n : ℤ) (o : List Bool),
      ¬(sec = 59 ∧ 0 < s.start_amount) →
      s.price_alert_threshold < |s.change_percent| →
      s.price_change_threshold < |s.change_percent| →
      (∃ e ∈ (smCheckStockAlerts c s sec n o).2.2, e.kind = AlertKind.priceMove) ∧
      (∃ e ∈ (smCheckStockAlerts c s sec n o).2.2,
        e.kind = AlertKind.priceWarning ∧ e.critical = true)) :=
  ⟨fun c s m sec n o ha hw => checkStockAlerts_bothPrices c s m sec n o ha hw,
   fun c s sec n o hs ha hw => smCheckStockAlerts_bothPrices c s sec n o hs ha hw⟩

/-- C5 witness: in `monitor.py`, on a second-59 tick with a live baseline,
a 6% change against thresholds 2 and 5 produces both candidates. -/
theorem priceMove_priceWarning_both_fire_witness :
    (bothTicksStock.price_alert_threshold < |bothTicksStock.change_percent|) ∧
    (bothTicksStock.price_change_threshold < |bothTicksStock.change_percent|) ∧
    ((∃ e ∈ (checkStockAlerts 60 bothTicksStock 0 59 0 [true, true]).2.2,
        e.kind = AlertKind.priceMove) ∧
      (∃ e ∈ (checkStockAlerts 60 bothTicksStock 0 59 0 [true, true]).2.2,
        e.kind = AlertKind.priceWarning ∧ e.critical = true)) :=
  ⟨by norm_num [bothTicksStock, Stock.update, initStock, round2, intRound],
   by norm_num [bothTicksStock, Stock.update, initStock, round2, intRound],
   priceMove_priceWarning_both_fire.1 60 bothTicksStock 0 59 0 [true, true]
    (by norm_num [bothTicksStock, Stock.update, initStock, round2, intRound])
    (by norm_num [bothTicksStock, Stock.update, initStock, round2, intRound])⟩

/-- C6: every `send_notification` call makes exactly one dispatch attempt
(no retry) and returns normally; `last_notification_time` is set to the
current instant exactly on a delivered notification, and on a suppressed
or failed dispatch the stock state — the cooldown clock included — is left
completely unchanged. -/
theorem notification_failure_localized (cooldown now : ℤ) (s : Stock) (k : AlertKind)
    (cr : Bool) (o : List Bool) :
    ((sendNotification cooldown now s k cr o).2.2.length = 1) ∧
    (∀ e ∈ (sendNotification cooldown now s k cr o).2.2, e.delivered = true →
      (sendNotification cooldown now s k cr o).1.last_notification_time = some now) ∧
    (∀ e ∈ (sendNotification cooldown now s k cr o).2.2, e.delivered = false →
      (sendNotification cooldown now s k cr o).1 = s) := by
  unfold sendNotification
  split_ifs with h1 h2
  · refine ⟨rfl, fun e he hd => rfl, fun e he hd => ?_⟩
    simp only [List.mem_singleton] at he
    subst he
    cases hd
  · refine ⟨rfl, fun e he hd => ?_, fun e he hd => rfl⟩
    simp only [List.mem_singleton] at he
    subst he
    cases hd
  · refine ⟨rfl, fun e he hd => ?_, fun e he hd => rfl⟩
    simp only [List.mem_singleton] at he
    subst he
    cases hd

/-- C6 witness: a failed dispatch (`oracle = [false]`) records one
undelivered candidate and leaves the stock — including its cooldown
clock — exactly as it was. -/
theorem notification_failure_localized_witness :
    (⟨AlertKind.priceMove, false, 5, false⟩ : Emitted) ∈
      (sendNotification 60 5 (initStock 50 2 3 []) AlertKind.priceMove false [false]).2.2 ∧
    (⟨AlertKind.priceMove, false, 5, false⟩ : Emitted).delivered = false ∧
    (sendNotification 60 5 (initStock 50 2 3 []) AlertKind.priceMove false [false]).1 =
      initStock 50 2 3 [] := by
  refine ⟨by norm_num [sendNotification, canSendNotification, initStock], rfl, ?_⟩
  exact (notification_failure_localized 60 5 (initStock 50 2 3 [])
    AlertKind.priceMove false [false]).2.2 ⟨AlertKind.priceMove, false, 5, false⟩
    (by norm_num [sendNotification, canSendNotification, initStock]) rfl

/-- C7 counterexample: `should_reconnect` also returns false when the
network retry budget is exhausted, even with zero connection retries —
so it is not false exactly when `retries >= max_retries`. -/
theorem shouldReconnect_network_budget :
    shouldReconnect ⟨3, 5⟩ ⟨0, 5⟩ = false ∧ (0 : ℕ) < 3 := by decide

/-- C7 corrected: `should_reconnect` is false exactly when the connection
retry count has reached `max_retries` or the network retry count has
reached `max_network_retries`; with the network budget intact it is false
exactly when `retries >= max_retries`, so with `max_retries = 3` the three
consultations after failed connects succeed and the fourth returns
false. -/
theorem shouldReconnect_characterization :
    (∀ (cfg : Config) (st : State),
      shouldReconnect cfg st = false ↔
        (cfg.max_retries ≤ st.connection_retries ∨
          cfg.max_network_retries ≤ st.network_retries)) ∧
    (shouldReconnect ⟨3, 5⟩ ⟨0, 0⟩ = true ∧ shouldReconnect ⟨3, 5⟩ ⟨1, 0⟩ = true ∧
      shouldReconnect ⟨3, 5⟩ ⟨2, 0⟩ = true ∧ shouldReconnect ⟨3, 5⟩ ⟨3, 0⟩ = false) := by
  constructor
  · intro cfg st
    unfold shouldReconnect
    split_ifs with hA hB
    · simp [hA]
    · simp [hA, hB]
    · simp [hA, hB]
  · decide

/-- C8: the recovery loop returns false with sleeps
`base * 2 ^ 0, ..., base * 2 ^ (max-1)` when every probe fails, returns
true at the first successful probe having slept only the backoff delays of
the failed probes before it, and the `monitor.py` variant is the same loop
with base delay 5 — so `max_retries = 3` gives sleeps 5, 10, 20 in that
order. -/
theorem await_recovery_backoff :
    (∀ (probes : ℕ → Bool) (maxA base nr : ℕ),
      (∀ k < maxA, probes k = false) →
      nmWaitForRecovery probes maxA base nr =
        (false, nr, (List.range maxA).map fun k => base * 2 ^ k)) ∧
    (∀ (probes : ℕ → Bool) (maxA base nr j : ℕ),
      j < maxA → probes j = true → (∀ k < j, probes k = false) →
      nmWaitForRecovery probes maxA base nr =
        (true, 0, (List.range j).map fun k => base * 2 ^ k)) ∧
    (∀ (probes : ℕ → Bool) (maxA : ℕ), (∀ k < maxA, probes k = false) →
      waitForNetworkRecovery probes maxA =
        (false, (List.range maxA).map fun k => 5 * 2 ^ k)) := by
  have hz : ∀ (base : ℕ), (fun (i : ℕ) => base * 2 ^ (0 + i)) = fun i => base * 2 ^ i := by
    intro base
    funext i
    rw [Nat.zero_add]
  refine ⟨?_, ?_, ?_⟩
  · intro probes maxA base nr h
    unfold nmWaitForRecovery
    rw [recoveryGo_allFail probes base maxA 0 (fun k _ hk2 => h k (by omega)), hz]
    rfl
  · intro probes maxA base nr j hj hpj hk
    unfold nmWaitForRecovery
    rw [recoveryGo_firstSuccess probes base maxA 0 j (Nat.zero_le j) (by omega) hpj
      (fun k _ hk2 => hk k hk2)]
    rw [Nat.sub_zero, hz]
    rfl
  · intro probes maxA h
    unfold waitForNetworkRecovery
    rw [recoveryGo_allFail probes 5 maxA 0 (fun k _ hk2 => h k (by omega)), hz]

/-- C8 witness: with all probes failing, three attempts and base delay 5
sleep 5, 10, 20 seconds in that order and return false. -/
theorem await_recovery_backoff_witness :
    (∀ k < 3, (fun _ => false : ℕ → Bool) k = false) ∧
    nmWaitForRecovery (fun _ => false) 3 5 7 = (false, 7, [5, 10, 20]) ∧
    waitForNetworkRecovery (fun _ => false) 3 = (false, [5, 10, 20]) := by
  refine ⟨fun k _ => rfl, ?_, ?_⟩
  · rw [await_recovery_backoff.1 (fun _ => false) 3 5 7 (fun k _ => rfl)]
    rfl
  · rw [await_recovery_backoff.2.2 (fun _ => false) 3 (fun k _ => rfl)]
    rfl

/-- C9 counterexample: in the `920579.py` variant an empty quote batch
only logs a warning — the connection status is left `true` and nothing is
disconnected, refuting the claim that the loop disconnects on an empty
batch. -/
theorem empty_batch_no_disconnect_920579 :
    innerTick920579 60 100 5 0 30 true ⟨none, 0, none⟩ none [] =
      (true, ⟨none, 0, none⟩, []) := rfl

/-- C9 corrected: in `monitor_stocks` (`src/monitor.py`) an empty or
absent batch clears `is_connected`, leaves every stock untouched, and
evaluates no alert; the `920579.py` variant instead continues with its
connection status and state unchanged, also emitting nothing. -/
theorem empty_batch_disconnects :
    (∀ (c m sec n : ℤ) (st : MonitorState) (response : Option (List QuoteItem))
        (o : List Bool),
      response = none ∨ response = some [] →
      monitorFetchStep c m sec n st response o = ({ st with is_connected := false }, [])) ∧
    (∀ (c vt : ℤ) (pt : ℚ) (n sec : ℤ) (b : Bool) (st : St920579)
        (response : Option (List QuoteData)) (o : List Bool),
      response = none ∨ response = some [] →
      innerTick920579 c vt pt n sec b st response o = (b, st, [])) := by
  constructor
  · intro c m sec n st response o h
    rcases h with rfl | rfl <;> rfl
  · intro c vt pt n sec b st response o h
    rcases h with rfl | rfl <;> rfl

/-- C9 witness: an absent batch flips `is_connected` to false and leaves
the stock dictionary untouched with no alert evaluated. -/
theorem empty_batch_disconnects_witness :
    ((none : Option (List QuoteItem)) = none ∨
      (none : Option (List QuoteItem)) = some []) ∧
    monitorFetchStep 60 0 30 0 demoMonitorState none [] =
      ({ demoMonitorState with is_connected := false }, []) :=
  ⟨Or.inl rfl,
   empty_batch_disconnects.1 60 0 30 0 demoMonitorState none [] (Or.inl rfl)⟩

/-- C10: when a configured, unfired target is reached by a tick, its flag
is set to true no matter whether the notification is delivered; the rest
of the run never emits a TargetReached candidate for it again; and when
the cooldown is still hot at the tick instant, no candidate of that tick
is delivered at all — the notification for that target is permanently lost. -/
theorem target_flag_set_before_dispatch (cooldown : ℤ) (s : Stock) (t : TickData) (p : ℚ)
    (ts : List TickData)
    (hmem : p ∈ s.target_prices) (hflag : s.target_triggered p = false)
    (hreach : p ≤ t.quote.price) :
    ((processTick cooldown s t).1.target_triggered p = true) ∧
    (countTR p (processTicks cooldown (processTick cooldown s t).1 ts).2 = 0) ∧
    (∀ l, s.last_notification_time = some l → t.now - l < cooldown →
      ∀ e ∈ (processTick cooldown s t).2, e.delivered = false) := by
  have hset : (processTick cooldown s t).1.target_triggered p = true := by
    rw [processTick_flag, hflag]
    simp [hmem, hreach]
  refine ⟨hset, (processTicks_flagged cooldown ts _ p hset).1, ?_⟩
  intro l hl hlt e he
  by_contra hne
  have hd : e.delivered = true := by
    cases hx : e.delivered with
    | false => exact absurd hx hne
    | true => rfl
  have hmem2 : e.time ∈ deliveredTimes (processTick cooldown s t).2 :=
    mem_deliveredTimes he hd
  have hsep := (processTick_cooldown cooldown s t).1
  rw [hl] at hsep
  cases hdt : deliveredTimes (processTick cooldown s t).2 with
  | nil =>
    rw [hdt] at hmem2
    cases hmem2
  | cons x xs =>
    rw [hdt] at hsep
    have hx : x ∈ deliveredTimes (processTick cooldown s t).2 := by
      rw [hdt]
      exact List.mem_cons_self x xs
    obtain ⟨e2, he2, ht2⟩ := deliveredTimes_sub hx
    have hxn : x = t.now := by
      rw [← ht2]
      exact processTick_times cooldown s t e2 he2
    have hcc := hsep.1
    rw [hxn] at hcc
    omega

/-- C10 witness: with the cooldown still hot, the tick crossing target 24
sets the flag, delivers nothing, and a later tick far outside the cooldown
emits no TargetReached candidate for 24 anymore. -/
theorem target_flag_set_before_dispatch_witness :
    ((24 : ℚ) ∈ hotStock.target_prices ∧
      hotStock.target_triggered 24 = false ∧
      (24 : ℚ) ≤ hotTick.quote.price) ∧
    ((processTick 60 hotStock hotTick).1.target_triggered 24 = true ∧
      countTR 24 (processTicks 60 (processTick 60 hotStock hotTick).1 lateTicks).2 = 0) := by
  have h := target_flag_set_before_dispatch 60 hotStock hotTick 24 lateTicks
    (by norm_num [hotStock, initStock]) rfl (by norm_num [hotTick])
  exact ⟨⟨by norm_num [hotStock, initStock], rfl, by norm_num [hotTick]⟩, h.1, h.2.1⟩

end StockMonitor
